import Mathlib

/-!
Verification of the crown renderer command-submission core
(`Renderer` in the source header): handle tables, the binary
command stream protocol, the double-buffered frame contexts and the
producer/consumer ping-pong scheduler.

Machine values written into the command stream are modelled as `Nat`s
together with an explicit byte width (the C++ `write` is a `memcpy` of
`sizeof(T)` bytes); streams are lists of bytes (naturals below 256 when
well-formed).
-/

namespace Crown

/-! ### Byte-level encoding primitives

Modelled from the spec: the `CommandBuffer` class (RenderContext.h) is not
in the sources; §4.2 describes it as an append-only byte buffer whose
`write(value)` appends the in-memory representation of a fixed-size value
and whose `read(value)` advances a cursor and copies out a value of the
expected type. We encode a width-`w` value little-endian, base 256. -/

/-- Little-endian fixed-width byte encoding of a natural number. -/
def toBytes : Nat → Nat → List Nat
  | 0, _ => []
  | w + 1, v => v % 256 :: toBytes w (v / 256)

/-- Little-endian byte decoding. -/
def fromBytes : List Nat → Nat
  | [] => 0
  | b :: bs => b + 256 * fromBytes bs

theorem toBytes_length (w v : Nat) : (toBytes w v).length = w := by
  induction w generalizing v with
  | zero => rfl
  | succ w ih => simp [toBytes, ih]

theorem fromBytes_toBytes (w v : Nat) (h : v < 256 ^ w) :
    fromBytes (toBytes w v) = v := by
  induction w generalizing v with
  | zero =>
    simp only [toBytes, fromBytes]
    omega
  | succ w ih =>
    have hdiv : v / 256 < 256 ^ w := by
      rw [Nat.div_lt_iff_lt_mul (by norm_num)]
      calc v < 256 ^ (w + 1) := h
        _ = 256 ^ w * 256 := by ring
    simp [toBytes, fromBytes, ih _ hdiv, Nat.mod_add_div]

/-- Typed cursor read of a `w`-byte value, mirroring `CommandBuffer::read`. -/
def readV (w : Nat) (bs : List Nat) : Option (Nat × List Nat) :=
  if w ≤ bs.length then some (fromBytes (bs.take w), bs.drop w) else none

/-- Raw read of `n` bytes (used for the length-prefixed uniform name). -/
def readB (n : Nat) (bs : List Nat) : Option (List Nat × List Nat) :=
  if n ≤ bs.length then some (bs.take n, bs.drop n) else none

theorem take_append_of_length {α : Type} {xs : List α} {n : Nat}
    (ys : List α) (h : xs.length = n) : (xs ++ ys).take n = xs := by
  subst h; simp

theorem drop_append_of_length {α : Type} {xs : List α} {n : Nat}
    (ys : List α) (h : xs.length = n) : (xs ++ ys).drop n = ys := by
  subst h; simp

theorem readV_encode {w v : Nat} (rest : List Nat) (h : v < 256 ^ w) :
    readV w (toBytes w v ++ rest) = some (v, rest) := by
  have hlen := toBytes_length w v
  unfold readV
  rw [if_pos (by simp [hlen])]
  rw [take_append_of_length rest hlen, drop_append_of_length rest hlen,
    fromBytes_toBytes w v h]

theorem readB_encode {n : Nat} {xs : List Nat} (rest : List Nat)
    (h : xs.length = n) : readB n (xs ++ rest) = some (xs, rest) := by
  unfold readB
  rw [if_pos (by simp [← h]), take_append_of_length rest h,
    drop_append_of_length rest h]

/-! ### Handle Table

Modelled from the spec: `IdTable.h` is not in the sources. §4.1: `create()`
allocates the lowest free slot, marks it live, returns an id; fails when all
slots are occupied. `destroy(id)` marks the slot free; `has(id)` is the O(1)
liveness check. §3: an id combines a slot index and a generation marker, and
ids are never reused while a liveness check for the old id would succeed. -/

/-- A resource id: slot index plus generation/validity marker (§3). -/
structure Id where
  index : Nat
  gen : Nat
deriving DecidableEq, Repr

/-- The packed integer form of an id, as written into the command stream. -/
def Id.encode (id : Id) : Nat := id.index + 65536 * id.gen

/-- Fixed-capacity handle table: a live flag and a generation per slot.
The capacity is the length of the slot arrays. -/
structure IdTable where
  live : List Bool
  gens : List Nat
deriving DecidableEq, Repr

/-- Index of the lowest free slot, if any. -/
def lowestFree : List Bool → Option Nat
  | [] => none
  | false :: _ => some 0
  | true :: l => (lowestFree l).map (· + 1)

def IdTable.mk0 (cap : Nat) : IdTable :=
  ⟨List.replicate cap false, List.replicate cap 0⟩

def IdTable.cap (t : IdTable) : Nat := t.live.length

/-- O(1) liveness check validating every resource-affecting call (§4.1). -/
def IdTable.has (t : IdTable) (id : Id) : Bool :=
  decide (id.index < t.live.length) && t.live.getD id.index false
    && (t.gens.getD id.index 0 == id.gen)

/-- Allocate the lowest free slot; `none` when capacity is exhausted. -/
def IdTable.create (t : IdTable) : Option (IdTable × Id) :=
  match lowestFree t.live with
  | none => none
  | some i => some ({ t with live := t.live.set i true }, ⟨i, t.gens.getD i 0⟩)

/-- Free the slot and bump its generation, so the old id stops validating
and is never confused with a future occupant of the slot. -/
def IdTable.destroy (t : IdTable) (id : Id) : IdTable :=
  if t.has id then
    { t with live := t.live.set id.index false,
             gens := t.gens.set id.index (id.gen + 1) }
  else t

/-- Number of simultaneously live ids. -/
def IdTable.liveCount (t : IdTable) : Nat := t.live.count true

theorem lowestFree_lt {l : List Bool} {i : Nat} (h : lowestFree l = some i) :
    i < l.length := by
  induction l generalizing i with
  | nil => simp [lowestFree] at h
  | cons b l ih =>
    cases b with
    | false =>
      simp only [lowestFree, Option.some.injEq] at h
      subst h; simp
    | true =>
      simp only [lowestFree, Option.map_eq_some'] at h
      obtain ⟨j, hj, rfl⟩ := h
      have := ih hj
      simp only [List.length_cons]
      omega

theorem lowestFree_getD {l : List Bool} {i : Nat} (h : lowestFree l = some i) :
    l.getD i true = false := by
  induction l generalizing i with
  | nil => simp [lowestFree] at h
  | cons b l ih =>
    cases b with
    | false =>
      simp only [lowestFree, Option.some.injEq] at h
      subst h; rfl
    | true =>
      simp only [lowestFree, Option.map_eq_some'] at h
      obtain ⟨j, hj, rfl⟩ := h
      simpa using ih hj

theorem lowestFree_none_of_all_true {l : List Bool}
    (h : l.count true = l.length) : lowestFree l = none := by
  induction l with
  | nil => rfl
  | cons b l ih =>
    cases b with
    | false =>
      exfalso
      have := List.count_le_length true l
      simp [List.count_cons] at h
      omega
    | true =>
      have : l.count true = l.length := by
        simp [List.count_cons] at h; omega
      simp [lowestFree, ih this]

theorem liveCount_le_cap (t : IdTable) : t.liveCount ≤ t.cap :=
  List.count_le_length true t.live

/-- `has` is true immediately after `create`. -/
theorem has_after_create {t t' : IdTable} {id : Id}
    (h : t.create = some (t', id)) : t'.has id = true := by
  unfold IdTable.create at h
  cases hf : lowestFree t.live with
  | none => rw [hf] at h; simp at h
  | some i =>
    rw [hf] at h
    simp only [Option.some_inj] at h
    obtain ⟨rfl, rfl⟩ := Prod.mk.injEq .. ▸ h
    have hi := lowestFree_lt hf
    simp [IdTable.has, hi, List.getD_eq_getElem?_getD, List.getElem?_set_self,
      hi]

/-- `has` is false immediately after the table's `destroy`. -/
theorem has_after_destroy {t : IdTable} {id : Id} (h : t.has id = true) :
    (t.destroy id).has id = false := by
  have hi : id.index < t.live.length := by
    unfold IdTable.has at h
    simp only [Bool.and_eq_true, decide_eq_true_eq] at h
    exact h.1.1
  unfold IdTable.destroy
  rw [if_pos h]
  simp [IdTable.has, List.getD_eq_getElem?_getD, List.getElem?_set_self, hi]

/-- `create` fails deterministically, with no table change, at capacity. -/
theorem create_none_of_full {t : IdTable} (h : t.liveCount = t.cap) :
    t.create = none := by
  unfold IdTable.create
  rw [lowestFree_none_of_all_true h]

/-! ### The command protocol

The closed command enumeration of `CommandType::Enum` (opcodes assigned in
declaration order; `Config.h` is not in the sources, so the concrete numeric
values are a model choice — no claim depends on them). Field widths follow
the C++ operand types: enums and ids 4 bytes, `size_t` and pointers 8
bytes, `uint32_t` 4 bytes, `uint8_t` 1 byte. Bulk payloads (vertex, index,
texture and shader-source data) are written as raw pointers (§4.2), which
we model as 8-byte integers. -/

/-- Maximum uniform name length, `CROWN_MAX_UNIFORM_NAME_LENGTH`.
Modelled from the spec: `Config.h` is not in the sources; the concrete
value is immaterial to every claim, only its role as a strict bound. -/
def CROWN_MAX_UNIFORM_NAME_LENGTH : Nat := 32

/-- A command record as submitted by the producer API.  The terminating
`END` opcode is not a constructor: it is appended only by
`RenderContext::push` and consumed by the decoder. -/
inductive Command where
  | initRenderer
  | shutdownRenderer
  | createVertexBuffer (id count format vertices : Nat)
  | createDynamicVertexBuffer (id count format : Nat)
  | updateVertexBuffer (id offset count vertices : Nat)
  | destroyVertexBuffer (id : Nat)
  | createIndexBuffer (id count indices : Nat)
  | createDynamicIndexBuffer (id count : Nat)
  | updateIndexBuffer (id offset count indices : Nat)
  | destroyIndexBuffer (id : Nat)
  | createTexture (id width height format data : Nat)
  | updateTexture (id x y width height data : Nat)
  | destroyTexture (id : Nat)
  | createShader (id type text : Nat)
  | destroyShader (id : Nat)
  | createGpuProgram (id vertex pixel : Nat)
  | destroyGpuProgram (id : Nat)
  | createUniform (id : Nat) (name : List Nat) (type num : Nat)
  | destroyUniform (id : Nat)
deriving DecidableEq, Repr

/-- `CommandBuffer::write` of a `w`-byte value. -/
def wr (w v : Nat) : List Nat := toBytes w v

/-- The byte encoding of one command record, exactly the sequence of
`m_commands.write` calls each producer method performs. -/
def encodeRecord : Command → List Nat
  | .initRenderer => wr 4 0
  | .shutdownRenderer => wr 4 1
  | .createVertexBuffer id count format vertices =>
      wr 4 2 ++ (wr 4 id ++ (wr 8 count ++ (wr 4 format ++ wr 8 vertices)))
  | .createDynamicVertexBuffer id count format =>
      wr 4 3 ++ (wr 4 id ++ (wr 8 count ++ wr 4 format))
  | .updateVertexBuffer id offset count vertices =>
      wr 4 4 ++ (wr 4 id ++ (wr 8 offset ++ (wr 8 count ++ wr 8 vertices)))
  | .destroyVertexBuffer id => wr 4 5 ++ wr 4 id
  | .createIndexBuffer id count indices =>
      wr 4 6 ++ (wr 4 id ++ (wr 8 count ++ wr 8 indices))
  | .createDynamicIndexBuffer id count => wr 4 7 ++ (wr 4 id ++ wr 8 count)
  | .updateIndexBuffer id offset count indices =>
      wr 4 8 ++ (wr 4 id ++ (wr 8 offset ++ (wr 8 count ++ wr 8 indices)))
  | .destroyIndexBuffer id => wr 4 9 ++ wr 4 id
  | .createTexture id width height format data =>
      wr 4 10 ++ (wr 4 id ++ (wr 4 width ++ (wr 4 height ++
        (wr 4 format ++ wr 8 data))))
  | .updateTexture id x y width height data =>
      wr 4 11 ++ (wr 4 id ++ (wr 4 x ++ (wr 4 y ++ (wr 4 width ++
        (wr 4 height ++ wr 8 data)))))
  | .destroyTexture id => wr 4 12 ++ wr 4 id
  | .createShader id type text =>
      wr 4 13 ++ (wr 4 id ++ (wr 4 type ++ wr 8 text))
  | .destroyShader id => wr 4 14 ++ wr 4 id
  | .createGpuProgram id vertex pixel =>
      wr 4 15 ++ (wr 4 id ++ (wr 4 vertex ++ wr 4 pixel))
  | .destroyGpuProgram id => wr 4 16 ++ wr 4 id
  | .createUniform id name type num =>
      wr 4 17 ++ (wr 4 id ++ (wr 8 name.length ++ (name ++
        (wr 4 type ++ wr 1 num))))
  | .destroyUniform id => wr 4 18 ++ wr 4 id

/-- The `END` record appended by `RenderContext::push`. -/
def endBytes : List Nat := wr 4 19

/-- Well-formedness of a record: every operand fits its field width (the
C++ operand types enforce this by construction) and — for `CREATE_UNIFORM`
— the producer-side name-length precondition holds. -/
def Command.valid : Command → Bool
  | .initRenderer => true
  | .shutdownRenderer => true
  | .createVertexBuffer id count format vertices =>
      decide (id < 256 ^ 4) && decide (count < 256 ^ 8)
        && decide (format < 256 ^ 4) && decide (vertices < 256 ^ 8)
  | .createDynamicVertexBuffer id count format =>
      decide (id < 256 ^ 4) && decide (count < 256 ^ 8)
        && decide (format < 256 ^ 4)
  | .updateVertexBuffer id offset count vertices =>
      decide (id < 256 ^ 4) && decide (offset < 256 ^ 8)
        && decide (count < 256 ^ 8) && decide (vertices < 256 ^ 8)
  | .destroyVertexBuffer id => decide (id < 256 ^ 4)
  | .createIndexBuffer id count indices =>
      decide (id < 256 ^ 4) && decide (count < 256 ^ 8)
        && decide (indices < 256 ^ 8)
  | .createDynamicIndexBuffer id count =>
      decide (id < 256 ^ 4) && decide (count < 256 ^ 8)
  | .updateIndexBuffer id offset count indices =>
      decide (id < 256 ^ 4) && decide (offset < 256 ^ 8)
        && decide (count < 256 ^ 8) && decide (indices < 256 ^ 8)
  | .destroyIndexBuffer id => decide (id < 256 ^ 4)
  | .createTexture id width height format data =>
      decide (id < 256 ^ 4) && decide (width < 256 ^ 4)
        && decide (height < 256 ^ 4) && decide (format < 256 ^ 4)
        && decide (data < 256 ^ 8)
  | .updateTexture id x y width height data =>
      decide (id < 256 ^ 4) && decide (x < 256 ^ 4) && decide (y < 256 ^ 4)
        && decide (width < 256 ^ 4) && decide (height < 256 ^ 4)
        && decide (data < 256 ^ 8)
  | .destroyTexture id => decide (id < 256 ^ 4)
  | .createShader id type text =>
      decide (id < 256 ^ 4) && decide (type < 256 ^ 4)
        && decide (text < 256 ^ 8)
  | .destroyShader id => decide (id < 256 ^ 4)
  | .createGpuProgram id vertex pixel =>
      decide (id < 256 ^ 4) && decide (vertex < 256 ^ 4)
        && decide (pixel < 256 ^ 4)
  | .destroyGpuProgram id => decide (id < 256 ^ 4)
  | .createUniform id name type num =>
      decide (id < 256 ^ 4)
        && decide (name.length < CROWN_MAX_UNIFORM_NAME_LENGTH)
        && decide (type < 256 ^ 4) && decide (num < 256 ^ 1)
  | .destroyUniform id => decide (id < 256 ^ 4)

/-- One iteration of the `execute_commands` decode loop: read the opcode,
then the operands of that opcode's fixed shape.  Returns `(none, rest)` on
`END`, `(some c, rest)` for a decoded record, and `none` (the fatal
protocol-violation path: the `CE_ASSERT(false, ...)` default branch or a
truncated read) otherwise. -/
def decodeStep (bs : List Nat) : Option (Option Command × List Nat) := do
  let (op, bs) ← readV 4 bs
  if op = 0 then
    return (some .initRenderer, bs)
  else if op = 1 then
    return (some .shutdownRenderer, bs)
  else if op = 2 then
    let (id, bs) ← readV 4 bs
    let (count, bs) ← readV 8 bs
    let (format, bs) ← readV 4 bs
    let (vertices, bs) ← readV 8 bs
    return (some (.createVertexBuffer id count format vertices), bs)
  else if op = 3 then
    let (id, bs) ← readV 4 bs
    let (count, bs) ← readV 8 bs
    let (format, bs) ← readV 4 bs
    return (some (.createDynamicVertexBuffer id count format), bs)
  else if op = 4 then
    let (id, bs) ← readV 4 bs
    let (offset, bs) ← readV 8 bs
    let (count, bs) ← readV 8 bs
    let (vertices, bs) ← readV 8 bs
    return (some (.updateVertexBuffer id offset count vertices), bs)
  else if op = 5 then
    let (id, bs) ← readV 4 bs
    return (some (.destroyVertexBuffer id), bs)
  else if op = 6 then
    let (id, bs) ← readV 4 bs
    let (count, bs) ← readV 8 bs
    let (indices, bs) ← readV 8 bs
    return (some (.createIndexBuffer id count indices), bs)
  else if op = 7 then
    let (id, bs) ← readV 4 bs
    let (count, bs) ← readV 8 bs
    return (some (.createDynamicIndexBuffer id count), bs)
  else if op = 8 then
    let (id, bs) ← readV 4 bs
    let (offset, bs) ← readV 8 bs
    let (count, bs) ← readV 8 bs
    let (indices, bs) ← readV 8 bs
    return (some (.updateIndexBuffer id offset count indices), bs)
  else if op = 9 then
    let (id, bs) ← readV 4 bs
    return (some (.destroyIndexBuffer id), bs)
  else if op = 10 then
    let (id, bs) ← readV 4 bs
    let (width, bs) ← readV 4 bs
    let (height, bs) ← readV 4 bs
    let (format, bs) ← readV 4 bs
    let (data, bs) ← readV 8 bs
    return (some (.createTexture id width height format data), bs)
  else if op = 11 then
    let (id, bs) ← readV 4 bs
    let (x, bs) ← readV 4 bs
    let (y, bs) ← readV 4 bs
    let (width, bs) ← readV 4 bs
    let (height, bs) ← readV 4 bs
    let (data, bs) ← readV 8 bs
    return (some (.updateTexture id x y width height data), bs)
  else if op = 12 then
    let (id, bs) ← readV 4 bs
    return (some (.destroyTexture id), bs)
  else if op = 13 then
    let (id, bs) ← readV 4 bs
    let (type, bs) ← readV 4 bs
    let (text, bs) ← readV 8 bs
    return (some (.createShader id type text), bs)
  else if op = 14 then
    let (id, bs) ← readV 4 bs
    return (some (.destroyShader id), bs)
  else if op = 15 then
    let (id, bs) ← readV 4 bs
    let (vertex, bs) ← readV 4 bs
    let (pixel, bs) ← readV 4 bs
    return (some (.createGpuProgram id vertex pixel), bs)
  else if op = 16 then
    let (id, bs) ← readV 4 bs
    return (some (.destroyGpuProgram id), bs)
  else if op = 17 then
    let (id, bs) ← readV 4 bs
    let (len, bs) ← readV 8 bs
    let (name, bs) ← readB len bs
    let (type, bs) ← readV 4 bs
    let (num, bs) ← readV 1 bs
    return (some (.createUniform id name type num), bs)
  else if op = 18 then
    let (id, bs) ← readV 4 bs
    return (some (.destroyUniform id), bs)
  else if op = 19 then
    return (none, bs)
  else
    none

/-- The `do { ... } while (!end)` loop of `execute_commands`, reading
records until `END`; the fuel argument bounds the number of iterations
(each iteration consumes at least the 4 opcode bytes). -/
def decodeLoop : Nat → List Nat → Option (List Command × List Nat)
  | 0, _ => none
  | fuel + 1, bs => do
    let (oc, bs') ← decodeStep bs
    match oc with
    | none => return ([], bs')
    | some c => do
      let (cs, rest) ← decodeLoop fuel bs'
      return (c :: cs, rest)

/-- Byte encoding of a record sequence, in submission order. -/
def encodeStream : List Command → List Nat
  | [] => []
  | c :: cs => encodeRecord c ++ encodeStream cs

set_option maxHeartbeats 3200000 in
/-- Decoding inverts encoding, record by record. -/
theorem decodeStep_encode {c : Command} (rest : List Nat)
    (hv : c.valid = true) :
    decodeStep (encodeRecord c ++ rest) = some (some c, rest) := by
  cases c with
  | initRenderer =>
    simp [encodeRecord, decodeStep, wr,
      readV_encode _ (by norm_num : (0:Nat) < 256 ^ 4)]
  | shutdownRenderer =>
    simp [encodeRecord, decodeStep, wr,
      readV_encode _ (by norm_num : (1:Nat) < 256 ^ 4)]
  | createVertexBuffer id count format vertices =>
    simp only [Command.valid, Bool.and_eq_true, decide_eq_true_eq] at hv
    obtain ⟨⟨⟨h1, h2⟩, h3⟩, h4⟩ := hv
    simp [encodeRecord, decodeStep, wr, List.append_assoc,
      readV_encode _ (by norm_num : (2:Nat) < 256 ^ 4),
      readV_encode _ h1, readV_encode _ h2, readV_encode _ h3,
      readV_encode _ h4]
  | createDynamicVertexBuffer id count format =>
    simp only [Command.valid, Bool.and_eq_true, decide_eq_true_eq] at hv
    obtain ⟨⟨h1, h2⟩, h3⟩ := hv
    simp [encodeRecord, decodeStep, wr, List.append_assoc,
      readV_encode _ (by norm_num : (3:Nat) < 256 ^ 4),
      readV_encode _ h1, readV_encode _ h2, readV_encode _ h3]
  | updateVertexBuffer id offset count vertices =>
    simp only [Command.valid, Bool.and_eq_true, decide_eq_true_eq] at hv
    obtain ⟨⟨⟨h1, h2⟩, h3⟩, h4⟩ := hv
    simp [encodeRecord, decodeStep, wr, List.append_assoc,
      readV_encode _ (by norm_num : (4:Nat) < 256 ^ 4),
      readV_encode _ h1, readV_encode _ h2, readV_encode _ h3,
      readV_encode _ h4]
  | destroyVertexBuffer id =>
    simp only [Command.valid, decide_eq_true_eq] at hv
    simp [encodeRecord, decodeStep, wr, List.append_assoc,
      readV_encode _ (by norm_num : (5:Nat) < 256 ^ 4),
      readV_encode _ hv]
  | createIndexBuffer id count indices =>
    simp only [Command.valid, Bool.and_eq_true, decide_eq_true_eq] at hv
    obtain ⟨⟨h1, h2⟩, h3⟩ := hv
    simp [encodeRecord, decodeStep, wr, List.append_assoc,
      readV_encode _ (by norm_num : (6:Nat) < 256 ^ 4),
      readV_encode _ h1, readV_encode _ h2, readV_encode _ h3]
  | createDynamicIndexBuffer id count =>
    simp only [Command.valid, Bool.and_eq_true, decide_eq_true_eq] at hv
    obtain ⟨h1, h2⟩ := hv
    simp [encodeRecord, decodeStep, wr, List.append_assoc,
      readV_encode _ (by norm_num : (7:Nat) < 256 ^ 4),
      readV_encode _ h1, readV_encode _ h2]
  | updateIndexBuffer id offset count indices =>
    simp only [Command.valid, Bool.and_eq_true, decide_eq_true_eq] at hv
    obtain ⟨⟨⟨h1, h2⟩, h3⟩, h4⟩ := hv
    simp [encodeRecord, decodeStep, wr, List.append_assoc,
      readV_encode _ (by norm_num : (8:Nat) < 256 ^ 4),
      readV_encode _ h1, readV_encode _ h2, readV_encode _ h3,
      readV_encode _ h4]
  | destroyIndexBuffer id =>
    simp only [Command.valid, decide_eq_true_eq] at hv
    simp [encodeRecord, decodeStep, wr, List.append_assoc,
      readV_encode _ (by norm_num : (9:Nat) < 256 ^ 4),
      readV_encode _ hv]
  | createTexture id width height format data =>
    simp only [Command.valid, Bool.and_eq_true, decide_eq_true_eq] at hv
    obtain ⟨⟨⟨⟨h1, h2⟩, h3⟩, h4⟩, h5⟩ := hv
    simp [encodeRecord, decodeStep, wr, List.append_assoc,
      readV_encode _ (by norm_num : (10:Nat) < 256 ^ 4),
      readV_encode _ h1, readV_encode _ h2, readV_encode _ h3,
      readV_encode _ h4, readV_encode _ h5]
  | updateTexture id x y width height data =>
    simp only [Command.valid, Bool.and_eq_true, decide_eq_true_eq] at hv
    obtain ⟨⟨⟨⟨⟨h1, h2⟩, h3⟩, h4⟩, h5⟩, h6⟩ := hv
    simp [encodeRecord, decodeStep, wr, List.append_assoc,
      readV_encode _ (by norm_num : (11:Nat) < 256 ^ 4),
      readV_encode _ h1, readV_encode _ h2, readV_encode _ h3,
      readV_encode _ h4, readV_encode _ h5, readV_encode _ h6]
  | destroyTexture id =>
    simp only [Command.valid, decide_eq_true_eq] at hv
    simp [encodeRecord, decodeStep, wr, List.append_assoc,
      readV_encode _ (by norm_num : (12:Nat) < 256 ^ 4),
      readV_encode _ hv]
  | createShader id type text =>
    simp only [Command.valid, Bool.and_eq_true, decide_eq_true_eq] at hv
    obtain ⟨⟨h1, h2⟩, h3⟩ := hv
    simp [encodeRecord, decodeStep, wr, List.append_assoc,
      readV_encode _ (by norm_num : (13:Nat) < 256 ^ 4),
      readV_encode _ h1, readV_encode _ h2, readV_encode _ h3]
  | destroyShader id =>
    simp only [Command.valid, decide_eq_true_eq] at hv
    simp [encodeRecord, decodeStep, wr, List.append_assoc,
      readV_encode _ (by norm_num : (14:Nat) < 256 ^ 4),
      readV_encode _ hv]
  | createGpuProgram id vertex pixel =>
    simp only [Command.valid, Bool.and_eq_true, decide_eq_true_eq] at hv
    obtain ⟨⟨h1, h2⟩, h3⟩ := hv
    simp [encodeRecord, decodeStep, wr, List.append_assoc,
      readV_encode _ (by norm_num : (15:Nat) < 256 ^ 4),
      readV_encode _ h1, readV_encode _ h2, readV_encode _ h3]
  | destroyGpuProgram id =>
    simp only [Command.valid, decide_eq_true_eq] at hv
    simp [encodeRecord, decodeStep, wr, List.append_assoc,
      readV_encode _ (by norm_num : (16:Nat) < 256 ^ 4),
      readV_encode _ hv]
  | createUniform id name type num =>
    simp only [Command.valid, Bool.and_eq_true, decide_eq_true_eq] at hv
    obtain ⟨⟨⟨h1, h2⟩, h3⟩, h4⟩ := hv
    have hlen : name.length < 256 ^ 8 := by
      have : CROWN_MAX_UNIFORM_NAME_LENGTH < 256 ^ 8 := by
        norm_num [CROWN_MAX_UNIFORM_NAME_LENGTH]
      omega
    simp [encodeRecord, decodeStep, wr, List.append_assoc,
      readV_encode _ (by norm_num : (17:Nat) < 256 ^ 4),
      readV_encode _ h1, readV_encode _ hlen, readB_encode _ rfl,
      readV_encode _ h3, readV_encode _ h4]
  | destroyUniform id =>
    simp only [Command.valid, decide_eq_true_eq] at hv
    simp [encodeRecord, decodeStep, wr, List.append_assoc,
      readV_encode _ (by norm_num : (18:Nat) < 256 ^ 4),
      readV_encode _ hv]

/-- The decode of the `END` record. -/
theorem decodeStep_end (rest : List Nat) :
    decodeStep (endBytes ++ rest) = some (none, rest) := by
  simp [endBytes, decodeStep, wr,
    readV_encode _ (by norm_num : (19:Nat) < 256 ^ 4)]

/-- The full loop round-trip: a valid record sequence followed by the
terminating `END` decodes to exactly that sequence, consuming everything
up to and including the `END`. -/
theorem decodeLoop_encode {cmds : List Command} (rest : List Nat)
    {fuel : Nat} (hv : ∀ c ∈ cmds, c.valid = true)
    (hf : cmds.length < fuel) :
    decodeLoop fuel (encodeStream cmds ++ (endBytes ++ rest))
      = some (cmds, rest) := by
  induction cmds generalizing fuel with
  | nil =>
    cases fuel with
    | zero => omega
    | succ fuel =>
      simp [decodeLoop, encodeStream, decodeStep_end rest]
  | cons c cs ih =>
    cases fuel with
    | zero => omega
    | succ fuel =>
      have hc : c.valid = true := hv c (by simp)
      have hcs : ∀ x ∈ cs, x.valid = true := fun x hx => hv x (by simp [hx])
      have hlen : cs.length < fuel := by simp at hf; omega
      simp [decodeLoop, encodeStream, List.append_assoc,
        decodeStep_encode _ hc, ih hcs hlen]

/-! ### Command buffer and frame contexts -/

/-- The append-only command byte buffer (§4.2). -/
structure CommandBuffer where
  data : List Nat
deriving DecidableEq, Repr

def CommandBuffer.write (b : CommandBuffer) (bytes : List Nat) :
    CommandBuffer := ⟨b.data ++ bytes⟩

/-- `clear()` resets the stream to empty, ready for reuse (§4.2). -/
def CommandBuffer.clear (_b : CommandBuffer) : CommandBuffer := ⟨[]⟩

/-- Decode a full stream (the read side of `execute_commands`), returning
the record sequence up to the terminating `END` and the bytes after it. -/
def CommandBuffer.decode (b : CommandBuffer) : Option (List Command × List Nat) :=
  decodeLoop (b.data.length + 1) b.data

/-- One record of the Constant/Uniform Stream (§4.3).  Modelled from the
spec: the `ConstantBuffer` class is not in the sources; a record is a
uniform type tag, a `UniformId`, and the raw value bytes (whose length is
the encoded byte size). -/
structure ConstRec where
  type : Nat
  id : Nat
  data : List Nat
deriving DecidableEq, Repr

/-- A Frame Context (§3): one Command Stream, one Constant Stream, the
current-draw scratch state, and the per-layer state tables.  Modelled from
the spec: `RenderContext.h` is not in the sources; matrices, colors and
depth values are opaque tokens.  Layer tables and the draw list are
newest-first association lists. -/
structure RenderContext where
  m_commands : CommandBuffer := ⟨[]⟩
  m_constants : List ConstRec := []
  m_state : Nat := 0
  m_pose : Nat := 0
  m_program : Nat := 0
  m_vertex_buffer : Nat := 0
  m_index_buffer : Nat × Nat × Nat := (0, 0, 0)
  m_samplers : List (Nat × Nat × Nat × Nat) := []
  m_layer_targets : List (Nat × Nat) := []
  m_layer_clears : List (Nat × Nat × Nat × Nat) := []
  m_layer_views : List (Nat × Nat) := []
  m_layer_projections : List (Nat × Nat) := []
  m_layer_viewports : List (Nat × Nat × Nat × Nat × Nat) := []
  m_layer_scissors : List (Nat × Nat × Nat × Nat × Nat) := []
  m_draws : List (Nat × Nat × Nat × Nat × Nat) := []
deriving DecidableEq, Repr

/-- `push()` appends the terminating `END` record (§4.4). -/
def RenderContext.push (c : RenderContext) : RenderContext :=
  { c with m_commands := c.m_commands.write endBytes }

def RenderContext.set_state (c : RenderContext) (flags : Nat) : RenderContext :=
  { c with m_state := flags }

def RenderContext.set_pose (c : RenderContext) (pose : Nat) : RenderContext :=
  { c with m_pose := pose }

def RenderContext.set_program (c : RenderContext) (id : Nat) : RenderContext :=
  { c with m_program := id }

def RenderContext.set_vertex_buffer (c : RenderContext) (id : Nat) :
    RenderContext := { c with m_vertex_buffer := id }

def RenderContext.set_index_buffer (c : RenderContext)
    (id start_index num_indices : Nat) : RenderContext :=
  { c with m_index_buffer := (id, start_index, num_indices) }

/-- Appends a tagged constant record (§4.3). -/
def RenderContext.set_uniform (c : RenderContext) (id type : Nat)
    (value : List Nat) : RenderContext :=
  { c with m_constants := c.m_constants ++ [⟨type, id, value⟩] }

def RenderContext.set_texture (c : RenderContext)
    (unit sampler_uniform texture flags : Nat) : RenderContext :=
  { c with m_samplers := (unit, sampler_uniform, texture, flags) :: c.m_samplers }

def RenderContext.set_layer_render_target (c : RenderContext)
    (layer id : Nat) : RenderContext :=
  { c with m_layer_targets := (layer, id) :: c.m_layer_targets }

def RenderContext.set_layer_clear (c : RenderContext)
    (layer flags color depth : Nat) : RenderContext :=
  { c with m_layer_clears := (layer, flags, color, depth) :: c.m_layer_clears }

def RenderContext.set_layer_view (c : RenderContext) (layer view : Nat) :
    RenderContext := { c with m_layer_views := (layer, view) :: c.m_layer_views }

def RenderContext.set_layer_projection (c : RenderContext)
    (layer projection : Nat) : RenderContext :=
  { c with m_layer_projections := (layer, projection) :: c.m_layer_projections }

def RenderContext.set_layer_viewport (c : RenderContext)
    (layer x y width height : Nat) : RenderContext :=
  { c with m_layer_viewports :=
      (layer, x, y, width, height) :: c.m_layer_viewports }

def RenderContext.set_layer_scissor (c : RenderContext)
    (layer x y width height : Nat) : RenderContext :=
  { c with m_layer_scissors :=
      (layer, x, y, width, height) :: c.m_layer_scissors }

/-- `commit(layer)` finalizes the current draw's accumulated scratch state
against the named layer (§4.4). -/
def RenderContext.commit (c : RenderContext) (layer : Nat) : RenderContext :=
  { c with m_draws :=
      (layer, c.m_program, c.m_vertex_buffer, c.m_state, c.m_pose) :: c.m_draws }

/-! ### The Renderer

Handle-table capacities (`CROWN_MAX_*` in the missing `Config.h`) are
modelled as concrete constants; no claim depends on the values. -/

def CROWN_MAX_VERTEX_BUFFERS : Nat := 64
def CROWN_MAX_INDEX_BUFFERS : Nat := 64
def CROWN_MAX_TEXTURES : Nat := 64
def CROWN_MAX_SHADERS : Nat := 64
def CROWN_MAX_GPU_PROGRAMS : Nat := 64
def CROWN_MAX_UNIFORMS : Nat := 64
def CROWN_MAX_RENDER_TARGETS : Nat := 64

/-- The `Renderer` state: the two frame contexts (the `m_contexts[2]`
array with its `m_submit`/`m_draw` role pointers, represented by role),
the per-resource handle tables, the dispatcher flags, and the uniform
state of the backend (`RendererImplementation`, an external collaborator,
modelled as the association list built by `update_uniform_impl`). -/
structure Renderer where
  m_submit : RenderContext := {}
  m_draw : RenderContext := {}
  m_vertex_buffers : IdTable := IdTable.mk0 CROWN_MAX_VERTEX_BUFFERS
  m_index_buffers : IdTable := IdTable.mk0 CROWN_MAX_INDEX_BUFFERS
  m_textures : IdTable := IdTable.mk0 CROWN_MAX_TEXTURES
  m_shaders : IdTable := IdTable.mk0 CROWN_MAX_SHADERS
  m_gpu_programs : IdTable := IdTable.mk0 CROWN_MAX_GPU_PROGRAMS
  m_uniforms : IdTable := IdTable.mk0 CROWN_MAX_UNIFORMS
  m_render_targets : IdTable := IdTable.mk0 CROWN_MAX_RENDER_TARGETS
  m_is_initialized : Bool := false
  m_should_run : Bool := false
  implUniforms : List (Nat × List Nat) := []
deriving DecidableEq, Repr

/-- The freshly constructed renderer. -/
def Renderer.init0 : Renderer := {}

/-- Append bytes to the submit context's command stream
(`m_submit->m_commands.write(...)`). -/
def Renderer.submitWrite (r : Renderer) (bytes : List Nat) : Renderer :=
  { r with m_submit :=
      { r.m_submit with m_commands := r.m_submit.m_commands.write bytes } }

/-! ### Producer-facing API

Each method mirrors the corresponding `Renderer` method in the source:
a `CE_ASSERT` precondition fault is `Except.error` carrying the renderer
state as it stands at the instant of the fault (debug-build semantics:
execution halts there). -/

def Renderer.create_vertex_buffer (r : Renderer) (count format vertices : Nat) :
    Except Renderer (Renderer × Id) :=
  match r.m_vertex_buffers.create with
  | none => .error r
  | some (t, id) =>
    .ok (({ r with m_vertex_buffers := t }).submitWrite
      (encodeRecord (.createVertexBuffer id.encode count format vertices)), id)

def Renderer.create_dynamic_vertex_buffer (r : Renderer) (count format : Nat) :
    Except Renderer (Renderer × Id) :=
  match r.m_vertex_buffers.create with
  | none => .error r
  | some (t, id) =>
    .ok (({ r with m_vertex_buffers := t }).submitWrite
      (encodeRecord (.createDynamicVertexBuffer id.encode count format)), id)

def Renderer.update_vertex_buffer (r : Renderer) (id : Id)
    (offset count vertices : Nat) : Except Renderer Renderer :=
  if r.m_vertex_buffers.has id then
    .ok (r.submitWrite
      (encodeRecord (.updateVertexBuffer id.encode offset count vertices)))
  else .error r

def Renderer.destroy_vertex_buffer (r : Renderer) (id : Id) :
    Except Renderer Renderer :=
  if r.m_vertex_buffers.has id then
    .ok (r.submitWrite (encodeRecord (.destroyVertexBuffer id.encode)))
  else .error r

def Renderer.create_index_buffer (r : Renderer) (count indices : Nat) :
    Except Renderer (Renderer × Id) :=
  match r.m_index_buffers.create with
  | none => .error r
  | some (t, id) =>
    .ok (({ r with m_index_buffers := t }).submitWrite
      (encodeRecord (.createIndexBuffer id.encode count indices)), id)

def Renderer.update_index_buffer (r : Renderer) (id : Id)
    (offset count indices : Nat) : Except Renderer Renderer :=
  if r.m_index_buffers.has id then
    .ok (r.submitWrite
      (encodeRecord (.updateIndexBuffer id.encode offset count indices)))
  else .error r

def Renderer.destroy_index_buffer (r : Renderer) (id : Id) :
    Except Renderer Renderer :=
  if r.m_index_buffers.has id then
    .ok (r.submitWrite (encodeRecord (.destroyIndexBuffer id.encode)))
  else .error r

def Renderer.create_texture (r : Renderer) (width height format data : Nat) :
    Except Renderer (Renderer × Id) :=
  match r.m_textures.create with
  | none => .error r
  | some (t, id) =>
    .ok (({ r with m_textures := t }).submitWrite
      (encodeRecord (.createTexture id.encode width height format data)), id)

def Renderer.update_texture (r : Renderer) (id : Id)
    (x y width height data : Nat) : Except Renderer Renderer :=
  if r.m_textures.has id then
    .ok (r.submitWrite
      (encodeRecord (.updateTexture id.encode x y width height data)))
  else .error r

def Renderer.destroy_texture (r : Renderer) (id : Id) :
    Except Renderer Renderer :=
  if r.m_textures.has id then
    .ok (r.submitWrite (encodeRecord (.destroyTexture id.encode)))
  else .error r

def Renderer.create_shader (r : Renderer) (type text : Nat) :
    Except Renderer (Renderer × Id) :=
  match r.m_shaders.create with
  | none => .error r
  | some (t, id) =>
    .ok (({ r with m_shaders := t }).submitWrite
      (encodeRecord (.createShader id.encode type text)), id)

def Renderer.destroy_shader (r : Renderer) (id : Id) :
    Except Renderer Renderer :=
  if r.m_shaders.has id then
    .ok (r.submitWrite (encodeRecord (.destroyShader id.encode)))
  else .error r

def Renderer.create_gpu_program (r : Renderer) (vertex pixel : Id) :
    Except Renderer (Renderer × Id) :=
  match r.m_gpu_programs.create with
  | none => .error r
  | some (t, id) =>
    .ok (({ r with m_gpu_programs := t }).submitWrite
      (encodeRecord (.createGpuProgram id.encode vertex.encode pixel.encode)),
      id)

def Renderer.destroy_gpu_program (r : Renderer) (id : Id) :
    Except Renderer Renderer :=
  if r.m_gpu_programs.has id then
    .ok (r.submitWrite (encodeRecord (.destroyGpuProgram id.encode)))
  else .error r

/-- `create_uniform`, with `stock` modelling the extern
`name_to_stock_uniform`: `stock name = true` iff the name maps to a stock
uniform (the C++ check `name_to_stock_uniform(name) == ShaderUniform::COUNT`
failing).  The assert order is the source's: stock-name check, then
`m_uniforms.create()`, then the length check. -/
def Renderer.create_uniform (stock : List Nat → Bool) (r : Renderer)
    (name : List Nat) (type num : Nat) : Except Renderer (Renderer × Id) :=
  if stock name then .error r
  else
    match r.m_uniforms.create with
    | none => .error r
    | some (t, id) =>
      let r1 : Renderer := { r with m_uniforms := t }
      let len := name.length
      if len < CROWN_MAX_UNIFORM_NAME_LENGTH then
        .ok (r1.submitWrite
          (encodeRecord (.createUniform id.encode name type num)), id)
      else .error r1

def Renderer.destroy_uniform (r : Renderer) (id : Id) :
    Except Renderer Renderer :=
  if r.m_uniforms.has id then
    .ok (r.submitWrite (encodeRecord (.destroyUniform id.encode)))
  else .error r

def Renderer.set_state (r : Renderer) (flags : Nat) : Renderer :=
  { r with m_submit := r.m_submit.set_state flags }

def Renderer.set_pose (r : Renderer) (pose : Nat) : Renderer :=
  { r with m_submit := r.m_submit.set_pose pose }

def Renderer.set_program (r : Renderer) (id : Id) : Except Renderer Renderer :=
  if r.m_gpu_programs.has id then
    .ok { r with m_submit := r.m_submit.set_program id.encode }
  else .error r

def Renderer.set_vertex_buffer (r : Renderer) (id : Id) :
    Except Renderer Renderer :=
  if r.m_vertex_buffers.has id then
    .ok { r with m_submit := r.m_submit.set_vertex_buffer id.encode }
  else .error r

def Renderer.set_index_buffer (r : Renderer) (id : Id)
    (start_index num_indices : Nat) : Except Renderer Renderer :=
  if r.m_index_buffers.has id then
    .ok { r with m_submit :=
      r.m_submit.set_index_buffer id.encode start_index num_indices }
  else .error r

def Renderer.set_uniform (r : Renderer) (id : Id) (type : Nat)
    (value : List Nat) : Except Renderer Renderer :=
  if r.m_uniforms.has id then
    .ok { r with m_submit := r.m_submit.set_uniform id.encode type value }
  else .error r

def Renderer.set_texture (r : Renderer) (unit : Nat) (sampler_uniform : Id)
    (texture : Id) (flags : Nat) : Except Renderer Renderer :=
  if r.m_uniforms.has sampler_uniform then
    if r.m_textures.has texture then
      .ok { r with m_submit :=
        r.m_submit.set_texture unit sampler_uniform.encode texture.encode flags }
    else .error r
  else .error r

def Renderer.set_layer_render_target (r : Renderer) (layer : Nat) (id : Id) :
    Except Renderer Renderer :=
  if r.m_render_targets.has id then
    .ok { r with m_submit := r.m_submit.set_layer_render_target layer id.encode }
  else .error r

def Renderer.set_layer_clear (r : Renderer) (layer flags color depth : Nat) :
    Renderer :=
  { r with m_submit := r.m_submit.set_layer_clear layer flags color depth }

def Renderer.set_layer_view (r : Renderer) (layer view : Nat) : Renderer :=
  { r with m_submit := r.m_submit.set_layer_view layer view }

def Renderer.set_layer_projection (r : Renderer) (layer projection : Nat) :
    Renderer :=
  { r with m_submit := r.m_submit.set_layer_projection layer projection }

def Renderer.set_layer_viewport (r : Renderer) (layer x y width height : Nat) :
    Renderer :=
  { r with m_submit := r.m_submit.set_layer_viewport layer x y width height }

def Renderer.set_layer_scissor (r : Renderer) (layer x y width height : Nat) :
    Renderer :=
  { r with m_submit := r.m_submit.set_layer_scissor layer x y width height }

def Renderer.commit (r : Renderer) (layer : Nat) : Renderer :=
  { r with m_submit := r.m_submit.commit layer }

/-! ### Consumer side -/

/-- The per-record state effect of the `execute_commands` dispatch:
`INIT_RENDERER` calls `init_impl()` and sets `m_is_initialized`;
`SHUTDOWN_RENDERER` calls `shutdown_impl()`, clears `m_is_initialized` and
clears `m_should_run`; every other opcode invokes the matching backend
`*_impl` operation of the external `RendererImplementation` collaborator,
which holds no state in this model. -/
def Renderer.applyCommand (r : Renderer) : Command → Renderer
  | .initRenderer => { r with m_is_initialized := true }
  | .shutdownRenderer => { r with m_is_initialized := false,
                                  m_should_run := false }
  | _ => r

/-- `execute_commands(m_draw->m_commands)`: decode and dispatch every
record up to `END`, then `clear()` the stream.  `none` is the fatal
protocol-violation path. -/
def Renderer.execute_commands (r : Renderer) :
    Option (Renderer × List Command) :=
  match r.m_draw.m_commands.decode with
  | none => none
  | some (cs, _) =>
    let r1 := cs.foldl Renderer.applyCommand r
    some ({ r1 with m_draw :=
      { r1.m_draw with m_commands := r1.m_draw.m_commands.clear } }, cs)

/-- `update_uniform_impl`: the backend records the new uniform value. -/
def Renderer.update_uniform_impl (r : Renderer) (id : Nat)
    (data : List Nat) : Renderer :=
  { r with implUniforms := (id, data) :: r.implUniforms }

/-- `update_uniforms(m_draw->m_constants)`: apply every constant record
in order, then `clear()` the constant stream. -/
def Renderer.update_uniforms (r : Renderer) : Renderer × List ConstRec :=
  let recs := r.m_draw.m_constants
  let r1 := recs.foldl (fun s c => s.update_uniform_impl c.id c.data) r
  ({ r1 with m_draw := { r1.m_draw with m_constants := [] } }, recs)

/-- `swap_contexts()`: first `m_submit->push()` appends `END`, then the
`m_submit`/`m_draw` role pointers are exchanged. -/
def Renderer.swap_contexts (r : Renderer) : Renderer :=
  { r with m_submit := r.m_draw, m_draw := r.m_submit.push }

/-- Observable steps of one consumer iteration. -/
inductive REvent where
  | waitRender
  | swapCtx
  | execCommands (cmds : List Command)
  | applyConstants (recs : List ConstRec)
  | renderPass
  | signalMain
deriving DecidableEq, Repr

/-- One `render_all()` iteration of the consumer loop, with its event
trace: wait on `m_render_wait`, swap contexts, execute the draw command
stream, apply the draw constant stream, call `render_impl()` when
`m_is_initialized`, and post `m_main_wait`. -/
def Renderer.render_all (r : Renderer) : Option (Renderer × List REvent) :=
  let r1 := r.swap_contexts
  match r1.execute_commands with
  | none => none
  | some (r2, cs) =>
    let (r3, recs) := r2.update_uniforms
    some (r3,
      [.waitRender, .swapCtx, .execCommands cs, .applyConstants recs]
        ++ (if r3.m_is_initialized then [.renderPass] else [])
        ++ [.signalMain])

/-- `n` producer/consumer handoffs with an idle producer: each `frame()`
call releases exactly one consumer iteration and blocks until it posts
back, so the combined effect is `n` sequential `render_all` iterations;
the per-cycle traces are collected. -/
def Renderer.frameN : Renderer → Nat → Option (Renderer × List (List REvent))
  | r, 0 => some (r, [])
  | r, n + 1 =>
    match r.render_all with
    | none => none
    | some (r1, tr) =>
      match r1.frameN n with
      | none => none
      | some (r2, trs) => some (r2, tr :: trs)

/-! ### The ping-pong scheduler

The two counting semaphores `m_render_wait` and `m_main_wait` and the two
thread control points, as a transition system.  The producer is `working`
while it mutates the submit context between two handoffs; `frame()` posts
`m_render_wait` (moving it to `posted`) and then blocks on `m_main_wait`
(returning it to `working`).  The consumer is `waiting` while blocked on
`m_render_wait` in `render_all()` and `executing` from the moment it
acquires that semaphore (swap, decode, dispatch, render pass) until it
posts `m_main_wait`. -/

inductive PPhase where
  | working
  | posted
deriving DecidableEq, Repr

inductive CPhase where
  | waiting
  | executing
deriving DecidableEq, Repr

structure SchedState where
  render_wait : Nat
  main_wait : Nat
  prod : PPhase
  cons : CPhase
deriving DecidableEq, Repr

/-- Initial state: both semaphores at zero, the producer between frames,
the consumer blocked at the top of `render_all()`. -/
def SchedState.init : SchedState := ⟨0, 0, .working, .waiting⟩

/-- The interleaving semantics of the two threads. -/
inductive SchedStep : SchedState → SchedState → Prop where
  | frame_post (s : SchedState) (h : s.prod = .working) :
      SchedStep s { s with render_wait := s.render_wait + 1, prod := .posted }
  | frame_acquire (s : SchedState) (h : s.prod = .posted)
      (hw : 0 < s.main_wait) :
      SchedStep s { s with main_wait := s.main_wait - 1, prod := .working }
  | render_acquire (s : SchedState) (h : s.cons = .waiting)
      (hw : 0 < s.render_wait) :
      SchedStep s { s with render_wait := s.render_wait - 1,
                           cons := .executing }
  | render_post (s : SchedState) (h : s.cons = .executing) :
      SchedStep s { s with main_wait := s.main_wait + 1, cons := .waiting }

/-- Reachability from the initial state. -/
inductive SchedReach : SchedState → Prop where
  | init : SchedReach SchedState.init
  | step {s s' : SchedState} (hr : SchedReach s) (hs : SchedStep s s') :
      SchedReach s'

/-- The conserved token of the ping-pong barrier. -/
def SchedState.tokens (s : SchedState) : Nat :=
  s.render_wait + s.main_wait
    + (if s.cons = .executing then 1 else 0)
    + (if s.prod = .working then 1 else 0)

theorem tokens_init : SchedState.init.tokens = 1 := rfl

theorem tokens_step {s s' : SchedState} (h : SchedStep s s') :
    s'.tokens = s.tokens := by
  cases h with
  | frame_post h => simp [SchedState.tokens, h]; omega
  | frame_acquire h hw => simp [SchedState.tokens, h]; omega
  | render_acquire h hw => simp [SchedState.tokens, h]; omega
  | render_post h => simp [SchedState.tokens, h]; omega

theorem tokens_reach {s : SchedState} (h : SchedReach s) : s.tokens = 1 := by
  induction h with
  | init => exact tokens_init
  | step hr hs ih => rw [tokens_step hs, ih]

/-! ### Helper lemmas -/

/-- An arbitrary producer-side interaction with one handle table. -/
inductive TOp where
  | create
  | destroy (id : Id)
deriving DecidableEq, Repr

def runOp (t : IdTable) : TOp → IdTable
  | .create =>
    match t.create with
    | none => t
    | some (t', _) => t'
  | .destroy id => t.destroy id

def runOps (t : IdTable) (ops : List TOp) : IdTable := ops.foldl runOp t

theorem cap_create {t t' : IdTable} {id : Id} (h : t.create = some (t', id)) :
    t'.cap = t.cap := by
  unfold IdTable.create at h
  cases hf : lowestFree t.live with
  | none => rw [hf] at h; simp at h
  | some i =>
    rw [hf] at h
    simp only [Option.some_inj] at h
    obtain ⟨rfl, rfl⟩ := Prod.mk.injEq .. ▸ h
    simp [IdTable.cap]

theorem cap_destroy (t : IdTable) (id : Id) : (t.destroy id).cap = t.cap := by
  unfold IdTable.destroy
  split
  · simp [IdTable.cap]
  · rfl

theorem cap_runOp (t : IdTable) (o : TOp) : (runOp t o).cap = t.cap := by
  cases o with
  | create =>
    unfold runOp
    cases hc : t.create with
    | none => rfl
    | some p =>
      obtain ⟨t', id⟩ := p
      exact cap_create hc
  | destroy id => exact cap_destroy t id

theorem cap_runOps (t : IdTable) (ops : List TOp) :
    (runOps t ops).cap = t.cap := by
  induction ops generalizing t with
  | nil => rfl
  | cons o ops ih => rw [runOps, List.foldl_cons, ← runOps, ih, cap_runOp]

theorem cap_mk0 (c : Nat) : (IdTable.mk0 c).cap = c := by
  simp [IdTable.mk0, IdTable.cap]

theorem count_set_true {l : List Bool} {i : Nat} (hi : i < l.length)
    (hf : l.getD i true = false) :
    (l.set i true).count true = l.count true + 1 := by
  induction l generalizing i with
  | nil => simp at hi
  | cons b l ih =>
    cases i with
    | zero =>
      cases b with
      | false => simp [List.count_cons]
      | true => simp at hf
    | succ i =>
      have hi' : i < l.length := by simp at hi; omega
      have hf' : l.getD i true = false := by simpa using hf
      simp only [List.set, List.count_cons, ih hi' hf']
      omega

/-- `create` consumes exactly one slot. -/
theorem create_liveCount {t t' : IdTable} {id : Id}
    (h : t.create = some (t', id)) : t'.liveCount = t.liveCount + 1 := by
  unfold IdTable.create at h
  cases hf : lowestFree t.live with
  | none => rw [hf] at h; simp at h
  | some i =>
    rw [hf] at h
    simp only [Option.some_inj] at h
    obtain ⟨rfl, rfl⟩ := Prod.mk.injEq .. ▸ h
    exact count_set_true (lowestFree_lt hf) (lowestFree_getD hf)

theorem encodeRecord_length (c : Command) : 4 ≤ (encodeRecord c).length := by
  cases c <;> simp [encodeRecord, wr, toBytes_length]

theorem encodeStream_length (cmds : List Command) :
    cmds.length ≤ (encodeStream cmds).length := by
  induction cmds with
  | nil => simp [encodeStream]
  | cons c cs ih =>
    have := encodeRecord_length c
    simp only [encodeStream, List.length_append, List.length_cons]
    omega

/-- A producer-encoded stream closed by `push` decodes, with the decode
loop's own fuel, to exactly the submitted records, consuming everything up
to and including the single terminating `END`. -/
theorem decode_encodeStream {cmds : List Command}
    (hv : ∀ c ∈ cmds, c.valid = true) :
    CommandBuffer.decode ⟨encodeStream cmds ++ endBytes⟩ = some (cmds, []) := by
  unfold CommandBuffer.decode
  have h1 : cmds.length < (encodeStream cmds ++ endBytes).length + 1 := by
    have := encodeStream_length cmds
    simp only [List.length_append]
    omega
  have h2 := decodeLoop_encode [] hv h1
  simpa using h2

/-- The dispatcher-ready flag after executing a record sequence
(`INIT_RENDERER` sets it, `SHUTDOWN_RENDERER` clears it). -/
def dispatchFlag : Bool → List Command → Bool
  | b, [] => b
  | _, .initRenderer :: cs => dispatchFlag true cs
  | _, .shutdownRenderer :: cs => dispatchFlag false cs
  | b, _ :: cs => dispatchFlag b cs

/-- The consumer-loop flag after executing a record sequence
(`SHUTDOWN_RENDERER` clears it). -/
def dispatchRun : Bool → List Command → Bool
  | b, [] => b
  | _, .shutdownRenderer :: cs => dispatchRun false cs
  | b, _ :: cs => dispatchRun b cs

/-- The backend uniform state after applying a constant stream in order. -/
def applyRecs : List ConstRec → List (Nat × List Nat) → List (Nat × List Nat)
  | [], m => m
  | c :: recs, m => applyRecs recs ((c.id, c.data) :: m)

theorem foldl_applyCommand_eq (r : Renderer) (cs : List Command) :
    cs.foldl Renderer.applyCommand r
      = { r with m_is_initialized := dispatchFlag r.m_is_initialized cs,
                 m_should_run := dispatchRun r.m_should_run cs } := by
  induction cs generalizing r with
  | nil => rfl
  | cons c cs ih =>
    cases c <;>
      simp only [List.foldl_cons, Renderer.applyCommand, dispatchFlag,
        dispatchRun, ih]

theorem foldl_update_uniform_impl_eq (r : Renderer) (recs : List ConstRec) :
    recs.foldl (fun s c => s.update_uniform_impl c.id c.data) r
      = { r with implUniforms := applyRecs recs r.implUniforms } := by
  induction recs generalizing r with
  | nil => rfl
  | cons c recs ih =>
    rw [List.foldl_cons, ih]
    rfl

/-- The renderer state after one consumer iteration over a submit stream
holding the record sequence `cmds`: the roles have been exchanged, the
consumed context's streams are cleared, the dispatcher flags reflect the
executed records, and the backend uniform state has absorbed the constant
stream. -/
def renderAllResult (r : Renderer) (cmds : List Command) : Renderer :=
  { r with
    m_submit := r.m_draw,
    m_draw := { r.m_submit.push with m_commands := ⟨[]⟩, m_constants := [] },
    m_is_initialized := dispatchFlag r.m_is_initialized cmds,
    m_should_run := dispatchRun r.m_should_run cmds,
    implUniforms := applyRecs r.m_submit.m_constants r.implUniforms }

/-- The event trace of one consumer iteration (§4.6). -/
def renderAllTrace (r : Renderer) (cmds : List Command) : List REvent :=
  [.waitRender, .swapCtx, .execCommands cmds,
   .applyConstants r.m_submit.m_constants]
    ++ (if dispatchFlag r.m_is_initialized cmds then [.renderPass] else [])
    ++ [.signalMain]

/-- Full characterization of `render_all` on a producer-encoded submit
stream. -/
theorem render_all_eq (r : Renderer) (cmds : List Command)
    (hv : ∀ c ∈ cmds, c.valid = true)
    (h : r.m_submit.m_commands.data = encodeStream cmds) :
    r.render_all = some (renderAllResult r cmds, renderAllTrace r cmds) := by
  have hdec : (r.swap_contexts).m_draw.m_commands.decode = some (cmds, []) := by
    have : (r.swap_contexts).m_draw.m_commands
        = ⟨encodeStream cmds ++ endBytes⟩ := by
      simp [Renderer.swap_contexts, RenderContext.push, CommandBuffer.write, h]
    rw [this]
    exact decode_encodeStream hv
  unfold Renderer.render_all Renderer.execute_commands
  simp only [hdec]
  simp only [Renderer.update_uniforms, foldl_applyCommand_eq,
    foldl_update_uniform_impl_eq]
  simp [renderAllResult, renderAllTrace, Renderer.swap_contexts,
    RenderContext.push, CommandBuffer.clear, CommandBuffer.write]

/-- The consumer trace of a handoff with no pending commands: the submit
stream received only the `END` appended by `push`. -/
def baseTrace (b : Bool) : List REvent :=
  [.waitRender, .swapCtx, .execCommands [], .applyConstants []]
    ++ (if b then [.renderPass] else []) ++ [.signalMain]

theorem frameN_empty (n : Nat) (r : Renderer)
    (hs : r.m_submit.m_commands.data = [])
    (hd : r.m_draw.m_commands.data = [])
    (hcs : r.m_submit.m_constants = [])
    (hcd : r.m_draw.m_constants = []) :
    ∃ r', r.frameN n
        = some (r', List.replicate n (baseTrace r.m_is_initialized))
      ∧ r'.m_submit.m_commands.data = [] ∧ r'.m_draw.m_commands.data = []
      ∧ r'.m_submit.m_constants = [] ∧ r'.m_draw.m_constants = []
      ∧ r'.m_is_initialized = r.m_is_initialized := by
  induction n generalizing r with
  | zero => exact ⟨r, rfl, hs, hd, hcs, hcd, rfl⟩
  | succ n ih =>
    have henc : r.m_submit.m_commands.data = encodeStream [] := by
      simpa [encodeStream] using hs
    have hra := render_all_eq r [] (by simp) henc
    have hflag : (renderAllResult r []).m_is_initialized
        = r.m_is_initialized := by
      simp [renderAllResult, dispatchFlag]
    obtain ⟨r', hfr, h1, h2, h3, h4, h5⟩ := ih (renderAllResult r [])
      (by simp [renderAllResult, hd])
      (by simp [renderAllResult])
      (by simp [renderAllResult, hcd])
      (by simp [renderAllResult])
    rw [hflag] at hfr
    have htr : renderAllTrace r [] = baseTrace r.m_is_initialized := by
      simp [renderAllTrace, baseTrace, hcs, dispatchFlag]
    refine ⟨r', ?_, h1, h2, h3, h4, by rw [h5, hflag]⟩
    simp only [Renderer.frameN, hra, hfr, htr, List.replicate_succ]

/-! ### The claims -/

/-- C1: in every reachable interleaving of the producer (`frame`) and
consumer (`render_all`) semaphore protocol, the two threads are never
simultaneously active on a Frame Context (the producer mutating `submit`
while the consumer executes): at any instant at most one side is active
between a handoff and the next; `frame()` can return (consume
`m_main_wait`) only when the consumer has completed the prior frame and is
back at its wait point; and both semaphores stay at most 1, so the
pipeline is at most one frame out of phase. -/
theorem sched_ping_pong_exclusion (s : SchedState) (h : SchedReach s) :
    ¬(s.prod = .working ∧ s.cons = .executing)
    ∧ (0 < s.main_wait → s.cons = .waiting ∧ s.prod = .posted)
    ∧ s.render_wait ≤ 1 ∧ s.main_wait ≤ 1 := by
  have ht := tokens_reach h
  unfold SchedState.tokens at ht
  obtain ⟨rw', mw, p, c⟩ := s
  cases p <;> cases c <;> (simp_all; all_goals omega)

/-- Witness for C1, at the initial state. -/
theorem sched_ping_pong_exclusion_witness :
    ¬(SchedState.init.prod = .working ∧ SchedState.init.cons = .executing)
    ∧ (0 < SchedState.init.main_wait →
        SchedState.init.cons = .waiting ∧ SchedState.init.prod = .posted)
    ∧ SchedState.init.render_wait ≤ 1 ∧ SchedState.init.main_wait ≤ 1 :=
  sched_ping_pong_exclusion SchedState.init SchedReach.init

/-- C3: `swap_contexts()` first appends the `END` record to the submit
context (via `push`) and only then exchanges the submit/draw role
pointers: afterwards the new submit context is the old draw context, the
stream handed to the consumer is the old submit stream plus `END`, and it
decodes to exactly the submitted records with the single terminating `END`
as its final record and nothing after it. -/
theorem swap_contexts_end_then_exchange (r : Renderer) (cmds : List Command)
    (hv : ∀ c ∈ cmds, c.valid = true)
    (h : r.m_submit.m_commands.data = encodeStream cmds) :
    (r.swap_contexts).m_submit = r.m_draw
    ∧ (r.swap_contexts).m_draw.m_commands.data
        = r.m_submit.m_commands.data ++ endBytes
    ∧ (r.swap_contexts).m_draw.m_commands.decode = some (cmds, []) := by
  refine ⟨rfl,
    by simp [Renderer.swap_contexts, RenderContext.push, CommandBuffer.write],
    ?_⟩
  have hb : (r.swap_contexts).m_draw.m_commands
      = ⟨encodeStream cmds ++ endBytes⟩ := by
    simp [Renderer.swap_contexts, RenderContext.push, CommandBuffer.write, h]
  rw [hb]
  exact decode_encodeStream hv

/-- A submit-side state with one pending `DESTROY_VERTEX_BUFFER` record. -/
def rC3 : Renderer :=
  Renderer.init0.submitWrite (encodeRecord (.destroyVertexBuffer 3))

/-- Witness for C3. -/
theorem swap_contexts_end_then_exchange_witness :
    (rC3.swap_contexts).m_submit = rC3.m_draw
    ∧ (rC3.swap_contexts).m_draw.m_commands.data
        = rC3.m_submit.m_commands.data ++ endBytes
    ∧ (rC3.swap_contexts).m_draw.m_commands.decode
        = some ([.destroyVertexBuffer 3], []) :=
  swap_contexts_end_then_exchange rC3 [.destroyVertexBuffer 3]
    (by decide) (by decide)

/-- C5: encoding any supported command-record sequence through the
producer API's write calls and decoding it with the `execute_commands`
read loop yields exactly the written opcode/operand sequence in order,
stopping at the single terminating `END` with nothing left over, and the
subsequent `clear()` leaves the stream empty, equal to a freshly
constructed one. -/
theorem command_stream_round_trip (cmds : List Command)
    (hv : ∀ c ∈ cmds, c.valid = true) :
    CommandBuffer.decode ⟨encodeStream cmds ++ endBytes⟩ = some (cmds, [])
    ∧ CommandBuffer.clear ⟨encodeStream cmds ++ endBytes⟩
        = (⟨[]⟩ : CommandBuffer) :=
  ⟨decode_encodeStream hv, rfl⟩

/-- A representative supported record sequence. -/
def cmdsW : List Command :=
  [.createVertexBuffer 1 3 0 256, .createUniform 2 [97, 98] 1 4,
   .destroyVertexBuffer 1]

/-- Witness for C5. -/
theorem command_stream_round_trip_witness :
    CommandBuffer.decode ⟨encodeStream cmdsW ++ endBytes⟩ = some (cmdsW, [])
    ∧ CommandBuffer.clear ⟨encodeStream cmdsW ++ endBytes⟩
        = (⟨[]⟩ : CommandBuffer) :=
  command_stream_round_trip cmdsW (by decide)

/-- C6: for every sequence of create/destroy calls on a Handle Table of
capacity `C`, at most `C` ids are simultaneously live; `has` is true
immediately after `create` and false immediately after the table's
`destroy`; and creating a `(C+1)`-th live id fails deterministically,
leaving the table (its `C` live entries included) unchanged. -/
theorem handle_table_invariants (C : Nat) (ops : List TOp) (t : IdTable)
    (ht : t = runOps (IdTable.mk0 C) ops) :
    t.liveCount ≤ C
    ∧ (∀ t' id, t.create = some (t', id) → t'.has id = true)
    ∧ (∀ id, t.has id = true → (t.destroy id).has id = false)
    ∧ (t.liveCount = C → t.create = none ∧ runOps t [TOp.create] = t) := by
  have hcap : t.cap = C := by rw [ht, cap_runOps, cap_mk0]
  refine ⟨?_, fun t' id hc => has_after_create hc,
    fun id hh => has_after_destroy hh, fun hfull => ?_⟩
  · have := liveCount_le_cap t
    omega
  · have hnone : t.create = none := create_none_of_full (by rw [hfull, hcap])
    exact ⟨hnone, by simp [runOps, runOp, hnone]⟩

/-- Witness for C6, on capacity-2 and capacity-1 tables. -/
theorem handle_table_invariants_witness :
    (runOps (IdTable.mk0 2) [TOp.create]).liveCount ≤ 2
    ∧ ((runOps (IdTable.mk0 2) [TOp.create]).destroy ⟨0, 0⟩).has ⟨0, 0⟩
        = false
    ∧ (runOps (IdTable.mk0 1) [TOp.create]).create = none :=
  ⟨(handle_table_invariants 2 [TOp.create] _ rfl).1,
   (handle_table_invariants 2 [TOp.create] _ rfl).2.2.1 ⟨0, 0⟩ (by decide),
   ((handle_table_invariants 1 [TOp.create] _ rfl).2.2.2 (by decide)).1⟩

/-- C2: every public resource-affecting producer call on an id performs
the `has(id)` existence check before any record is encoded or any state is
mutated: when the check fails, the call faults with the renderer state
exactly as it was — in particular nothing is written into the Command
Stream.  Covers the `update_*`/`destroy_*` calls and the `set_*`
draw-state calls taking ids; for `set_texture` both checks are covered, in
the source's order. -/
theorem producer_validation_before_encode (r : Renderer) (id tex : Id)
    (a b c d e : Nat) (value : List Nat) :
    (r.m_vertex_buffers.has id = false →
      r.update_vertex_buffer id a b c = .error r)
    ∧ (r.m_vertex_buffers.has id = false →
      r.destroy_vertex_buffer id = .error r)
    ∧ (r.m_index_buffers.has id = false →
      r.update_index_buffer id a b c = .error r)
    ∧ (r.m_index_buffers.has id = false →
      r.destroy_index_buffer id = .error r)
    ∧ (r.m_textures.has id = false →
      r.update_texture id a b c d e = .error r)
    ∧ (r.m_textures.has id = false → r.destroy_texture id = .error r)
    ∧ (r.m_shaders.has id = false → r.destroy_shader id = .error r)
    ∧ (r.m_gpu_programs.has id = false → r.destroy_gpu_program id = .error r)
    ∧ (r.m_uniforms.has id = false → r.destroy_uniform id = .error r)
    ∧ (r.m_gpu_programs.has id = false → r.set_program id = .error r)
    ∧ (r.m_vertex_buffers.has id = false → r.set_vertex_buffer id = .error r)
    ∧ (r.m_index_buffers.has id = false → r.set_index_buffer id a b = .error r)
    ∧ (r.m_uniforms.has id = false → r.set_uniform id a value = .error r)
    ∧ (r.m_uniforms.has id = false → r.set_texture a id tex b = .error r)
    ∧ (r.m_uniforms.has id = true → r.m_textures.has tex = false →
      r.set_texture a id tex b = .error r)
    ∧ (r.m_render_targets.has id = false →
      r.set_layer_render_target a id = .error r) :=
  ⟨fun h => by simp [Renderer.update_vertex_buffer, h],
   fun h => by simp [Renderer.destroy_vertex_buffer, h],
   fun h => by simp [Renderer.update_index_buffer, h],
   fun h => by simp [Renderer.destroy_index_buffer, h],
   fun h => by simp [Renderer.update_texture, h],
   fun h => by simp [Renderer.destroy_texture, h],
   fun h => by simp [Renderer.destroy_shader, h],
   fun h => by simp [Renderer.destroy_gpu_program, h],
   fun h => by simp [Renderer.destroy_uniform, h],
   fun h => by simp [Renderer.set_program, h],
   fun h => by simp [Renderer.set_vertex_buffer, h],
   fun h => by simp [Renderer.set_index_buffer, h],
   fun h => by simp [Renderer.set_uniform, h],
   fun h => by simp [Renderer.set_texture, h],
   fun h1 h2 => by simp [Renderer.set_texture, h1, h2],
   fun h => by simp [Renderer.set_layer_render_target, h]⟩

/-- A renderer whose uniform table alone has one live id. -/
def rU : Renderer := { m_uniforms := ⟨[true], [0]⟩ }

/-- Witness for C2: never-created ids fault and leave the state
untouched; a live sampler uniform with a never-created texture also
faults. -/
theorem producer_validation_before_encode_witness :
    Renderer.init0.destroy_vertex_buffer ⟨0, 0⟩ = .error Renderer.init0
    ∧ Renderer.init0.update_texture ⟨0, 0⟩ 0 0 0 0 0 = .error Renderer.init0
    ∧ rU.set_texture 0 ⟨0, 0⟩ ⟨0, 0⟩ 0 = .error rU :=
  ⟨(producer_validation_before_encode Renderer.init0 ⟨0, 0⟩ ⟨0, 0⟩
      0 0 0 0 0 []).2.1 (by decide),
   (producer_validation_before_encode Renderer.init0 ⟨0, 0⟩ ⟨0, 0⟩
      0 0 0 0 0 []).2.2.2.2.1 (by decide),
   (producer_validation_before_encode rU ⟨0, 0⟩ ⟨0, 0⟩
      0 0 0 0 0 []).2.2.2.2.2.2.2.2.2.2.2.2.2.2.1 (by decide) (by decide)⟩

/-- C9: no producer-side destroy operation touches its Handle Table — the
table's `destroy` is never invoked on the producer side — so on success
the table is unchanged and `has(id)` still returns true after the call;
the slot therefore cannot be handed out again by subsequent `create`
calls, whose result depends only on the (unchanged) table. -/
theorem producer_destroy_preserves_handle_table (r : Renderer) (id : Id) :
    (r.m_vertex_buffers.has id = true →
      ∃ r', r.destroy_vertex_buffer id = .ok r'
        ∧ r'.m_vertex_buffers = r.m_vertex_buffers
        ∧ r'.m_vertex_buffers.has id = true)
    ∧ (r.m_index_buffers.has id = true →
      ∃ r', r.destroy_index_buffer id = .ok r'
        ∧ r'.m_index_buffers = r.m_index_buffers
        ∧ r'.m_index_buffers.has id = true)
    ∧ (r.m_textures.has id = true →
      ∃ r', r.destroy_texture id = .ok r'
        ∧ r'.m_textures = r.m_textures
        ∧ r'.m_textures.has id = true)
    ∧ (r.m_shaders.has id = true →
      ∃ r', r.destroy_shader id = .ok r'
        ∧ r'.m_shaders = r.m_shaders
        ∧ r'.m_shaders.has id = true)
    ∧ (r.m_gpu_programs.has id = true →
      ∃ r', r.destroy_gpu_program id = .ok r'
        ∧ r'.m_gpu_programs = r.m_gpu_programs
        ∧ r'.m_gpu_programs.has id = true)
    ∧ (r.m_uniforms.has id = true →
      ∃ r', r.destroy_uniform id = .ok r'
        ∧ r'.m_uniforms = r.m_uniforms
        ∧ r'.m_uniforms.has id = true) :=
  ⟨fun h => ⟨r.submitWrite (encodeRecord (.destroyVertexBuffer id.encode)),
     by simp [Renderer.destroy_vertex_buffer, h], rfl, h⟩,
   fun h => ⟨r.submitWrite (encodeRecord (.destroyIndexBuffer id.encode)),
     by simp [Renderer.destroy_index_buffer, h], rfl, h⟩,
   fun h => ⟨r.submitWrite (encodeRecord (.destroyTexture id.encode)),
     by simp [Renderer.destroy_texture, h], rfl, h⟩,
   fun h => ⟨r.submitWrite (encodeRecord (.destroyShader id.encode)),
     by simp [Renderer.destroy_shader, h], rfl, h⟩,
   fun h => ⟨r.submitWrite (encodeRecord (.destroyGpuProgram id.encode)),
     by simp [Renderer.destroy_gpu_program, h], rfl, h⟩,
   fun h => ⟨r.submitWrite (encodeRecord (.destroyUniform id.encode)),
     by simp [Renderer.destroy_uniform, h], rfl, h⟩⟩

/-- A renderer with one live id in every resource table. -/
def rLive : Renderer :=
  { m_vertex_buffers := ⟨[true], [0]⟩, m_index_buffers := ⟨[true], [0]⟩,
    m_textures := ⟨[true], [0]⟩, m_shaders := ⟨[true], [0]⟩,
    m_gpu_programs := ⟨[true], [0]⟩, m_uniforms := ⟨[true], [0]⟩ }

/-- Witness for C9, on every destroy operation. -/
theorem producer_destroy_preserves_handle_table_witness :
    (∃ r', rLive.destroy_vertex_buffer ⟨0, 0⟩ = .ok r'
      ∧ r'.m_vertex_buffers = rLive.m_vertex_buffers
      ∧ r'.m_vertex_buffers.has ⟨0, 0⟩ = true)
    ∧ (∃ r', rLive.destroy_index_buffer ⟨0, 0⟩ = .ok r'
      ∧ r'.m_index_buffers = rLive.m_index_buffers
      ∧ r'.m_index_buffers.has ⟨0, 0⟩ = true)
    ∧ (∃ r', rLive.destroy_texture ⟨0, 0⟩ = .ok r'
      ∧ r'.m_textures = rLive.m_textures
      ∧ r'.m_textures.has ⟨0, 0⟩ = true)
    ∧ (∃ r', rLive.destroy_shader ⟨0, 0⟩ = .ok r'
      ∧ r'.m_shaders = rLive.m_shaders
      ∧ r'.m_shaders.has ⟨0, 0⟩ = true)
    ∧ (∃ r', rLive.destroy_gpu_program ⟨0, 0⟩ = .ok r'
      ∧ r'.m_gpu_programs = rLive.m_gpu_programs
      ∧ r'.m_gpu_programs.has ⟨0, 0⟩ = true)
    ∧ (∃ r', rLive.destroy_uniform ⟨0, 0⟩ = .ok r'
      ∧ r'.m_uniforms = rLive.m_uniforms
      ∧ r'.m_uniforms.has ⟨0, 0⟩ = true) :=
  ⟨(producer_destroy_preserves_handle_table rLive ⟨0, 0⟩).1 (by decide),
   (producer_destroy_preserves_handle_table rLive ⟨0, 0⟩).2.1 (by decide),
   (producer_destroy_preserves_handle_table rLive ⟨0, 0⟩).2.2.1 (by decide),
   (producer_destroy_preserves_handle_table rLive ⟨0, 0⟩).2.2.2.1 (by decide),
   (producer_destroy_preserves_handle_table rLive ⟨0, 0⟩).2.2.2.2.1
     (by decide),
   (producer_destroy_preserves_handle_table rLive ⟨0, 0⟩).2.2.2.2.2
     (by decide)⟩

/-- C7: `create_uniform` succeeds for a non-stock name of exactly the
maximum allowed length (`CROWN_MAX_UNIFORM_NAME_LENGTH - 1`, since the
check is strict) and faults the precondition check for a name one
character longer. -/
theorem create_uniform_name_length_boundary (stock : List Nat → Bool)
    (r : Renderer) (name : List Nat) (type num : Nat) (t : IdTable) (id : Id)
    (hstock : stock name = false) (hc : r.m_uniforms.create = some (t, id)) :
    (name.length = CROWN_MAX_UNIFORM_NAME_LENGTH - 1 →
      r.create_uniform stock name type num
        = .ok (({ r with m_uniforms := t }).submitWrite
            (encodeRecord (.createUniform id.encode name type num)), id))
    ∧ (name.length = CROWN_MAX_UNIFORM_NAME_LENGTH →
      r.create_uniform stock name type num
        = .error { r with m_uniforms := t }) := by
  constructor
  · intro hlen
    simp [Renderer.create_uniform, hstock, hc, hlen,
      CROWN_MAX_UNIFORM_NAME_LENGTH]
  · intro hlen
    simp [Renderer.create_uniform, hstock, hc, hlen,
      CROWN_MAX_UNIFORM_NAME_LENGTH]

/-- The uniform table after the first `create` on a fresh one. -/
def uTable1 : IdTable :=
  ⟨(List.replicate 64 false).set 0 true, List.replicate 64 0⟩

def nameMax : List Nat := List.replicate 31 97

def nameOver : List Nat := List.replicate 32 97

/-- Witness for C7: a 31-byte name succeeds, a 32-byte name faults. -/
theorem create_uniform_name_length_boundary_witness :
    Renderer.init0.create_uniform (fun _ => false) nameMax 0 1
      = .ok (({ Renderer.init0 with m_uniforms := uTable1 }).submitWrite
          (encodeRecord (.createUniform (Id.encode ⟨0, 0⟩) nameMax 0 1)),
        (⟨0, 0⟩ : Id))
    ∧ Renderer.init0.create_uniform (fun _ => false) nameOver 0 1
      = .error { Renderer.init0 with m_uniforms := uTable1 } :=
  ⟨(create_uniform_name_length_boundary (fun _ => false) Renderer.init0
      nameMax 0 1 uTable1 ⟨0, 0⟩ rfl (by decide)).1 (by decide),
   (create_uniform_name_length_boundary (fun _ => false) Renderer.init0
      nameOver 0 1 uTable1 ⟨0, 0⟩ rfl (by decide)).2 (by decide)⟩

/-- C10: in `create_uniform` the stock-name precondition is checked before
any handle is allocated (a stock name faults with the state untouched),
but the name-length precondition is checked only after `m_uniforms.create()`
has allocated a slot: when the length check faults, the fault state's
uniform table has consumed one more slot while the submit context is
untouched — failure is not atomic with respect to the table. -/
theorem create_uniform_nonatomic_failure (stock : List Nat → Bool)
    (r : Renderer) (name : List Nat) (type num : Nat) (t : IdTable) (id : Id)
    (hstock : stock name = false) (hc : r.m_uniforms.create = some (t, id))
    (hlen : ¬name.length < CROWN_MAX_UNIFORM_NAME_LENGTH) :
    r.create_uniform stock name type num = .error { r with m_uniforms := t }
    ∧ t.liveCount = r.m_uniforms.liveCount + 1
    ∧ ({ r with m_uniforms := t } : Renderer).m_submit = r.m_submit
    ∧ (∀ name2 type2 num2, stock name2 = true →
        r.create_uniform stock name2 type2 num2 = .error r) :=
  ⟨by simp [Renderer.create_uniform, hstock, hc, hlen],
   create_liveCount hc, rfl,
   fun name2 type2 num2 h => by simp [Renderer.create_uniform, h]⟩

/-- Witness for C10: an over-long name faults after the slot is taken;
the empty name is stock here and faults with the state untouched. -/
theorem create_uniform_nonatomic_failure_witness :
    Renderer.init0.create_uniform (fun n => n.isEmpty) nameOver 0 1
      = .error { Renderer.init0 with m_uniforms := uTable1 }
    ∧ uTable1.liveCount = Renderer.init0.m_uniforms.liveCount + 1
    ∧ ({ Renderer.init0 with m_uniforms := uTable1 } : Renderer).m_submit
        = Renderer.init0.m_submit
    ∧ Renderer.init0.create_uniform (fun n => n.isEmpty) [] 0 1
        = .error Renderer.init0 := by
  have h := create_uniform_nonatomic_failure (fun n => n.isEmpty)
    Renderer.init0 nameOver 0 1 uTable1 ⟨0, 0⟩ (by decide) (by decide)
    (by decide)
  exact ⟨h.1, h.2.1, h.2.2.1, h.2.2.2 [] 0 1 (by decide)⟩

/-- C4: each consumer iteration performs, in this exact order: wait for
the producer-ready signal, swap contexts, execute the draw Command Stream
(the records the producer submitted), apply the draw Constant Stream —
so the backend's uniform state has absorbed the updates before the render
pass — then the backend end-of-frame render pass, present exactly when the
dispatcher is initialized after command execution, and finally the signal
to the producer. -/
theorem render_all_iteration_order (r : Renderer) (cmds : List Command)
    (hv : ∀ c ∈ cmds, c.valid = true)
    (h : r.m_submit.m_commands.data = encodeStream cmds) :
    ∃ r', r.render_all = some (r',
        [.waitRender, .swapCtx, .execCommands cmds,
         .applyConstants r.m_submit.m_constants]
          ++ (if dispatchFlag r.m_is_initialized cmds then [.renderPass]
              else [])
          ++ [.signalMain])
      ∧ r'.implUniforms = applyRecs r.m_submit.m_constants r.implUniforms := by
  refine ⟨renderAllResult r cmds, ?_, by simp [renderAllResult]⟩
  rw [render_all_eq r cmds hv h]
  rfl

/-- Witness for C4, at the freshly constructed renderer. -/
theorem render_all_iteration_order_witness :
    ∃ r', Renderer.init0.render_all = some (r',
        [REvent.waitRender, .swapCtx, .execCommands [], .applyConstants [],
         .signalMain])
      ∧ r'.implUniforms = applyRecs [] Renderer.init0.implUniforms := by
  have h := render_all_iteration_order Renderer.init0 [] (by simp) rfl
  simpa [dispatchFlag] using h

/-- C8: calling `frame()` `N` times with no intervening submission calls
performs exactly `N` producer/consumer handoffs — the trace is `N` full
consumer iterations, each executing no command other than the terminating
`END` appended by `push` — and after each handoff both Frame Contexts'
Command Streams are empty of pending (non-`END`) commands. -/
theorem frame_idempotence_empty_cycles (r : Renderer) (n : Nat)
    (hs : r.m_submit.m_commands.data = [])
    (hd : r.m_draw.m_commands.data = [])
    (hcs : r.m_submit.m_constants = [])
    (hcd : r.m_draw.m_constants = []) :
    ∃ r', r.frameN n
        = some (r', List.replicate n (baseTrace r.m_is_initialized))
      ∧ r'.m_submit.m_commands.data = []
      ∧ r'.m_draw.m_commands.data = [] := by
  obtain ⟨r', h1, h2, h3, _, _, _⟩ := frameN_empty n r hs hd hcs hcd
  exact ⟨r', h1, h2, h3⟩

/-- Witness for C8, three empty handoffs from the fresh renderer. -/
theorem frame_idempotence_empty_cycles_witness :
    ∃ r', Renderer.init0.frameN 3
        = some (r', List.replicate 3 (baseTrace false))
      ∧ r'.m_submit.m_commands.data = []
      ∧ r'.m_draw.m_commands.data = [] := by
  have h := frame_idempotence_empty_cycles Renderer.init0 3 rfl rfl rfl rfl
  simpa using h

end Crown
